import Mathlib

/-!
Verification of the Cryptalyze real-time candle ingestion pipeline
(`real_time.py`, `data_processor.py`) against its specification.

Shallow embedding conventions:
* A polars `DataFrame` of kline rows is a `List Row` (rows in frame order;
  `pl.concat` is list append, `tail(n)` drops all but the last `n` rows).
* Numeric OHLCV payload fields are modelled as `Int`: no claim depends on
  floating-point arithmetic, only on whole-record equality and on the
  integer `open_time` / `close_time` keys.
* The `Datetime("ms")` cast of an integer millisecond timestamp is the
  identity on the millisecond count, so the derived `open_datetime` /
  `close_datetime` columns are carried as the same natural number.
* Wall-clock time (`datetime.now()`) is passed explicitly as a `Nat`
  (seconds); network responses and raised exceptions are explicit inputs
  (`Except Unit` for fallible calls).
-/

namespace Cryptalyze

/-- A live-feed kline update, as extracted in `stream_live_data`
(`real_time.py` lines 114-130): the twelve numeric fields of a kline plus
the `is_closed` flag `x`.  The derived presentation datetimes are carried
by `candleToRow` when the candle is integrated. -/
structure Candle where
  open_time : Nat
  «open» : Int
  high : Int
  low : Int
  close : Int
  volume : Int
  close_time : Nat
  quote_asset_volume : Int
  number_of_trades : Nat
  taker_buy_base_volume : Int
  taker_buy_quote_volume : Int
  is_closed : Bool
deriving DecidableEq, Repr

/-- One row of the consolidated `combined_df` DataFrame: the schema built by
`integrate_closed_candle` (lines 209-228) and by the historical loaders —
twelve kline columns (with `ignore` as text) plus the two derived datetime
columns. -/
structure Row where
  open_time : Nat
  «open» : Int
  high : Int
  low : Int
  close : Int
  volume : Int
  close_time : Nat
  quote_asset_volume : Int
  number_of_trades : Nat
  taker_buy_base_volume : Int
  taker_buy_quote_volume : Int
  ignore : String
  open_datetime : Nat
  close_datetime : Nat
deriving DecidableEq, Repr

/-- The `new_row` DataFrame built from a closed candle in
`integrate_closed_candle` (lines 209-228): the kline fields with `ignore`
set to `""` and the two datetime columns derived by casting the integer
timestamps. -/
def candleToRow (c : Candle) : Row :=
  { open_time := c.open_time
    «open» := c.«open»
    high := c.high
    low := c.low
    close := c.close
    volume := c.volume
    close_time := c.close_time
    quote_asset_volume := c.quote_asset_volume
    number_of_trades := c.number_of_trades
    taker_buy_base_volume := c.taker_buy_base_volume
    taker_buy_quote_volume := c.taker_buy_quote_volume
    ignore := ""
    open_datetime := c.open_time
    close_datetime := c.close_time }

/-- Function `ContinuousDataStreamer.integrate_closed_candle` (lines 204-236): build
`new_row` from the candle and append it to `combined_df` with `pl.concat`
(or install it as the whole frame when `combined_df` is empty).  There is
no key lookup: the row is appended unconditionally. -/
def integrate_closed_candle (combined_df : List Row) (c : Candle) : List Row :=
  if combined_df.isEmpty then [candleToRow c]
  else combined_df ++ [candleToRow c]

/-- Folding a sequence of integrations (the spec's `apply` calls) over a
starting series. -/
def applyAll (combined_df : List Row) (cs : List Candle) : List Row :=
  cs.foldl integrate_closed_candle combined_df

/-- The iteration order of the series, projected to the `open_time` keys. -/
def rowTimes (df : List Row) : List Nat :=
  df.map (fun r => r.open_time)

/-- Strict ascending order of a key sequence, executably: each key is
smaller than the next. -/
def strictlyAscending : List Nat → Bool
  | [] => true
  | [_] => true
  | a :: b :: l => decide (a < b) && strictlyAscending (b :: l)

/-- The mutable state of a `ContinuousDataStreamer` (lines 152-160):
the consolidated frame, the live-candle buffer, the last auto-save time and
the configured save interval.  `saves` records the wall-clock times at
which `save_data` has been triggered (the observable persistence events). -/
structure StreamerState where
  combined_df : List Row
  live_candles : List Candle
  last_save_time : Nat
  save_interval_minutes : Nat
  saves : List Nat
deriving DecidableEq, Repr

/-- Function `ContinuousDataStreamer.auto_save_check` (lines 238-243): if at least
`save_interval_minutes * 60` seconds have elapsed since `last_save_time`,
trigger `save_data` (recorded in `saves`) and reset `last_save_time` to
`now`. -/
def auto_save_check (s : StreamerState) (now : Nat) : StreamerState :=
  if s.save_interval_minutes * 60 ≤ now - s.last_save_time then
    { s with saves := s.saves ++ [now], last_save_time := now }
  else s

/-- Function `ContinuousDataStreamer.handle_live_candle` (lines 176-202): append the
update to the `live_candles` buffer, integrate it into `combined_df` only
when `is_closed` is true, then run the periodic auto-save check.  The
printing of the update is I/O with no effect on the state. -/
def handle_live_candle (s : StreamerState) (c : Candle) (now : Nat) : StreamerState :=
  let s₁ : StreamerState := { s with live_candles := s.live_candles ++ [c] }
  let s₂ : StreamerState :=
    if c.is_closed then { s₁ with combined_df := integrate_closed_candle s₁.combined_df c }
    else s₁
  auto_save_check s₂ now

/-- The streamer state right after `initialize_data` (lines 162-174) seeds
`combined_df`, with the construction-time `last_save_time`. -/
def initStreamer (seed : List Row) (interval : Nat) (t₀ : Nat) : StreamerState :=
  { combined_df := seed
    live_candles := []
    last_save_time := t₀
    save_interval_minutes := interval
    saves := [] }

/-- Folding `auto_save_check` over the sequence of wall-clock instants at
which `handle_live_candle` runs the check. -/
def run_checks (s : StreamerState) (times : List Nat) : StreamerState :=
  times.foldl auto_save_check s

/-- A concrete candle for counterexamples and witnesses. -/
def sampleCandle (t : Nat) (price : Int) (closed : Bool) : Candle :=
  { open_time := t
    «open» := price
    high := price
    low := price
    close := price
    volume := 1
    close_time := t + 59999
    quote_asset_volume := 0
    number_of_trades := 0
    taker_buy_base_volume := 0
    taker_buy_quote_volume := 0
    is_closed := closed }

/-! Embedding of the live stream and the orchestrator. -/

/-- One inbound WebSocket message of `stream_live_data` (lines 107-138),
abstracted at the parse boundary: either the JSON envelope decodes to a
kline update, or decoding raises (the `except` branch logs and the
`async for` loop moves on to the next message). -/
inductive RawMsg where
  | wellFormed : Candle → RawMsg
  | malformed : RawMsg
deriving DecidableEq, Repr

/-- Function `BinanceRealtimeData.stream_live_data` (lines 103-138) over a finite
inbound message sequence, with the caller-supplied `callback` threaded as a
state transformer: a well-formed message is parsed and handed to the
callback, a malformed one is logged and skipped, and in both cases the loop
continues with the next message on the same connection.  Each message
carries the wall-clock instant at which it is handled. -/
def stream_live_data {σ : Type} (callback : σ → Candle → Nat → σ)
    (init : σ) (msgs : List (RawMsg × Nat)) : σ :=
  msgs.foldl
    (fun st m =>
      match m.1 with
      | RawMsg.wellFormed c => callback st c m.2
      | RawMsg.malformed => st)
    init

/-- One event seen by `run_continuous_stream` (lines 265-282): either a
parsed live update delivered at some wall-clock instant, or the loss of the
WebSocket connection (the exception raised out of `stream_live_data`). -/
inductive FeedEvent where
  | update : Candle → Nat → FeedEvent
  | connectionLost : FeedEvent
deriving DecidableEq, Repr

/-- Function `ContinuousDataStreamer.run_continuous_stream` (lines 265-282) after
`initialize_data`: updates are handled by `handle_live_candle`; the first
connection loss propagates out of `stream_live_data`, is caught by the
`except` branch, which saves the data and returns — there is no reconnect
loop, so every later event is never processed. -/
def run_stream (s : StreamerState) (events : List FeedEvent) : StreamerState :=
  match events with
  | [] => s
  | FeedEvent.update c now :: rest => run_stream (handle_live_candle s c now) rest
  | FeedEvent.connectionLost :: _ => s

/-! Embedding of the historical backfill and the bulk archive loader. -/

/-- One kline row of a REST backfill response or of an archive CSV file:
the twelve positional fields, before the derived datetime columns are
added.  The text-to-float cast of the numeric payload fields is modelled as
the identity (no claim depends on numeric parsing). -/
structure RawKline where
  open_time : Nat
  «open» : Int
  high : Int
  low : Int
  close : Int
  volume : Int
  close_time : Nat
  quote_asset_volume : Int
  number_of_trades : Nat
  taker_buy_base_volume : Int
  taker_buy_quote_volume : Int
  ignore : String
deriving DecidableEq, Repr

/-- Adding the derived `open_datetime` / `close_datetime` columns by casting
the integer millisecond timestamps (`real_time.py` lines 73-76,
`data_processor.py` lines 201-204). -/
def addDatetimes (k : RawKline) : Row :=
  { open_time := k.open_time
    «open» := k.«open»
    high := k.high
    low := k.low
    close := k.close
    volume := k.volume
    close_time := k.close_time
    quote_asset_volume := k.quote_asset_volume
    number_of_trades := k.number_of_trades
    taker_buy_base_volume := k.taker_buy_base_volume
    taker_buy_quote_volume := k.taker_buy_quote_volume
    ignore := k.ignore
    open_datetime := k.open_time
    close_datetime := k.close_time }

/-- Function `BinanceRealtimeData.get_historical_today_data` (lines 27-81), given the
JSON array the klines endpoint returned: an empty array yields an empty
DataFrame (lines 80-81); otherwise the rows are typed and the datetime
columns added. -/
def get_historical_today_data (data : List RawKline) : List Row :=
  if data.isEmpty then [] else data.map addDatetimes

/-- Executable lexicographic order on code-point lists, used to model the
lexicographic comparison of file names in Python's `list.sort`. -/
def lexLe : List Nat → List Nat → Bool
  | [], _ => true
  | _ :: _, [] => false
  | a :: as, b :: bs =>
    if a < b then true
    else if b < a then false
    else lexLe as bs

/-- Lexicographic order on strings, via their code points. -/
def strLe (a b : String) : Bool :=
  lexLe (a.data.map Char.toNat) (b.data.map Char.toNat)

/-- Python's `str.endswith`, executably: the code points of `suff` are the
final segment of those of `s`. -/
def strEndsWith (s suff : String) : Bool :=
  (s.data.map Char.toNat).drop (s.data.length - suff.data.length)
    == suff.data.map Char.toNat

/-- Function `BulkDataDownloader.get_file_list_from_s3_bucket` (`data_processor.py`
lines 47-107), given the object keys the S3 listing returned across all
pages: keep the `.zip` keys and sort them (Python's stable `list.sort`,
modelled by insertion sort over the lexicographic order on strings). -/
def get_file_list_from_s3_bucket (keys : List String) : List String :=
  List.insertionSort (fun a b => strLe a b = true)
    (keys.filter (fun k => strEndsWith k ".zip"))

/-- Function `BulkDataDownloader.get_polars_df` (`data_processor.py` lines 173-206),
given the listing keys and the rows each downloaded file decodes to.  The
first file of the sorted listing is always read (`download_urls[0]`, before
any truncation — an empty listing raises `IndexError`, modelled as
`Except.error`); then `download_urls` is truncated to `nfiles` when given,
the files from index 1 on are appended in order, and the datetime columns
are added to the concatenation. -/
def get_polars_df (fetch : String → List RawKline) (keys : List String)
    (nfiles : Option Nat) : Except Unit (List Row) :=
  match get_file_list_from_s3_bucket keys with
  | [] => Except.error ()
  | f₀ :: rest =>
    let urls : List String :=
      match nfiles with
      | none => f₀ :: rest
      | some n => (f₀ :: rest).take n
    let df : List RawKline :=
      (urls.drop 1).foldl (fun acc u => acc ++ fetch u) (fetch f₀)
    Except.ok (df.map addDatetimes)

/-- Function `BinanceRealtimeData.get_complete_today_data` (lines 83-101), given
today's rows and the outcome of the `get_polars_df(nfiles=1)` call for the
trailing context: a raised exception is caught and degrades to today-only
data with a warning; an empty frame also falls through to today-only;
otherwise the last 10 of the fetched rows (polars `tail(10)`) are
prepended to today's rows with `pl.concat`. -/
def get_complete_today_data (today : List Row)
    (yesterday : Except Unit (List Row)) : List Row :=
  match yesterday with
  | Except.error _ => today
  | Except.ok ydf =>
    if ydf.isEmpty then today
    else (ydf.drop (ydf.length - 10)) ++ today

/-- A concrete raw kline row for counterexamples and witnesses. -/
def sampleRawKline (t : Nat) (price : Int) : RawKline :=
  { open_time := t
    «open» := price
    high := price
    low := price
    close := price
    volume := 1
    close_time := t + 59999
    quote_asset_volume := 0
    number_of_trades := 0
    taker_buy_base_volume := 0
    taker_buy_quote_volume := 0
    ignore := "" }

/-- The event sequence of the spec's Scenario C: closed updates for keys
1000 and 2000 are delivered, the connection is lost, and after the alleged
reconnect a superseding closed update for 2000 and a closed update for 3000
arrive. -/
def scenarioC_events : List FeedEvent :=
  [FeedEvent.update (sampleCandle 1000 10 true) 0,
   FeedEvent.update (sampleCandle 2000 20 true) 0,
   FeedEvent.connectionLost,
   FeedEvent.update (sampleCandle 2000 21 true) 0,
   FeedEvent.update (sampleCandle 3000 30 true) 0]

/-- An archive with two daily files: an old one and the file for the day
immediately preceding today. -/
def twoDayKeys : List String :=
  ["BTCUSDT-1m-2024-06-01.zip", "BTCUSDT-1m-2024-01-01.zip"]

/-- The contents of the two archive files of `twoDayKeys`: the January file
holds a candle at `open_time` 100, the June file (the immediately preceding
period) one at 5000. -/
def twoDayFetch : String → List RawKline := fun name =>
  if name = "BTCUSDT-1m-2024-01-01.zip" then [sampleRawKline 100 1]
  else if name = "BTCUSDT-1m-2024-06-01.zip" then [sampleRawKline 5000 2]
  else []

/-- Today's already-elapsed rows in the two-day-archive scenario: one candle
at `open_time` 10000. -/
def twoDayToday : List Row :=
  [addDatetimes (sampleRawKline 10000 3)]

/-- A small concrete archive listing: two zip files (out of lexicographic
order) and one non-zip key. -/
def c10Keys : List String :=
  ["b.zip", "a.zip", "c.txt"]

/-- Concrete file contents for the `c10Keys` archive. -/
def c10Fetch : String → List RawKline :=
  fun _ => [sampleRawKline 1 1]

/-! Basic lemmas about the embedded operations. -/

theorem integrate_eq_append (df : List Row) (c : Candle) :
    integrate_closed_candle df c = df ++ [candleToRow c] := by
  cases df <;> simp [integrate_closed_candle]

theorem applyAll_eq_append (df : List Row) (cs : List Candle) :
    applyAll df cs = df ++ cs.map candleToRow := by
  induction cs generalizing df with
  | nil => simp [applyAll]
  | cons c cs ih =>
    simp only [applyAll, List.foldl_cons, List.map_cons]
    rw [show List.foldl integrate_closed_candle (integrate_closed_candle df c) cs
          = applyAll (integrate_closed_candle df c) cs from rfl, ih,
        integrate_eq_append]
    simp

theorem rowTimes_append (a b : List Row) :
    rowTimes (a ++ b) = rowTimes a ++ rowTimes b := by
  simp [rowTimes]

theorem rowTimes_map_candleToRow (cs : List Candle) :
    rowTimes (cs.map candleToRow) = cs.map (fun c => c.open_time) := by
  simp [rowTimes, candleToRow]

theorem lexLe_total (as bs : List Nat) : lexLe as bs = true ∨ lexLe bs as = true := by
  induction as generalizing bs with
  | nil => left; rfl
  | cons a as ih =>
    cases bs with
    | nil => right; rfl
    | cons b bs =>
      rcases Nat.lt_trichotomy a b with h | h | h
      · left; simp [lexLe, h]
      · subst h
        rcases ih bs with h' | h'
        · left; simp [lexLe, h']
        · right; simp [lexLe, h']
      · right; simp [lexLe, h]

theorem lexLe_trans (as bs cs : List Nat) (hab : lexLe as bs = true)
    (hbc : lexLe bs cs = true) : lexLe as cs = true := by
  induction as generalizing bs cs with
  | nil => rfl
  | cons a as ih =>
    cases bs with
    | nil => simp [lexLe] at hab
    | cons b bs =>
      cases cs with
      | nil => simp [lexLe] at hbc
      | cons c cs =>
        simp only [lexLe] at hab hbc ⊢
        rcases Nat.lt_trichotomy a b with h1 | h1 | h1
        · rcases Nat.lt_trichotomy b c with h2 | h2 | h2
          · simp [Nat.lt_trans h1 h2]
          · subst h2; simp [h1]
          · simp [Nat.lt_asymm h2, h2] at hbc
        · subst h1
          have hab' : lexLe as bs = true := by simpa [Nat.lt_irrefl] using hab
          rcases Nat.lt_trichotomy a c with h2 | h2 | h2
          · simp [h2]
          · subst h2
            have hbc' : lexLe bs cs = true := by simpa [Nat.lt_irrefl] using hbc
            simp [Nat.lt_irrefl, ih bs cs hab' hbc']
          · simp [Nat.lt_asymm h2, h2] at hbc
        · simp [Nat.lt_asymm h1, h1] at hab

instance : IsTotal String (fun a b => strLe a b = true) :=
  ⟨fun a b => lexLe_total (a.data.map Char.toNat) (b.data.map Char.toNat)⟩

instance : IsTrans String (fun a b => strLe a b = true) :=
  ⟨fun _ _ _ hab hbc => lexLe_trans _ _ _ hab hbc⟩

theorem foldl_append_extends {α β : Type} (g : β → List α) :
    ∀ (l : List β) (acc : List α),
      ∃ t, l.foldl (fun a u => a ++ g u) acc = acc ++ t
  | [], acc => ⟨[], by simp⟩
  | u :: l, acc => by
    obtain ⟨t, ht⟩ := foldl_append_extends g l (acc ++ g u)
    exact ⟨g u ++ t, by simp [ht]⟩

theorem run_checks_saves_spaced (times : List Nat) (s : StreamerState)
    (hmono : List.Chain' (fun a b => a ≤ b) (s.last_save_time :: times))
    (hchain : List.Chain' (fun a b => a + s.save_interval_minutes * 60 ≤ b) s.saves)
    (hlast : ∀ x ∈ s.saves.getLast?, x ≤ s.last_save_time) :
    List.Chain' (fun a b => a + s.save_interval_minutes * 60 ≤ b)
      (run_checks s times).saves := by
  induction times generalizing s with
  | nil => exact hchain
  | cons t ts ih =>
    have h1 : s.last_save_time ≤ t := hmono.rel_head
    have htail : List.Chain' (fun a b => a ≤ b) (t :: ts) := hmono.tail
    show List.Chain' _ (run_checks (auto_save_check s t) ts).saves
    by_cases hcond : s.save_interval_minutes * 60 ≤ t - s.last_save_time
    · have hs' : auto_save_check s t
          = { s with saves := s.saves ++ [t], last_save_time := t } := by
        simp [auto_save_check, hcond]
      rw [hs']
      refine ih _ htail ?_ ?_
      · dsimp only
        rw [List.chain'_append]
        refine ⟨hchain, List.chain'_singleton t, ?_⟩
        intro x hx y hy
        simp only [List.head?_cons, Option.mem_def, Option.some.injEq] at hy
        subst hy
        have hx' : x ≤ s.last_save_time := hlast x hx
        omega
      · dsimp only
        intro x hx
        rw [List.getLast?_concat] at hx
        simp only [Option.mem_def, Option.some.injEq] at hx
        subst hx
        exact le_refl t
    · have hs' : auto_save_check s t = s := by simp [auto_save_check, hcond]
      rw [hs']
      exact ih s (htail.tail.cons' (fun y hy => le_trans h1 (htail.rel_head? hy)))
        hchain hlast

/-! The claims. -/

/-- C1, as stated, is false on the code: applying the same closed candle
(key 1000) twice leaves two entries bearing `open_time` 1000 in the
resulting Series, not exactly one — `integrate_closed_candle` appends
unconditionally and never replaces. -/
theorem c1_counterexample :
    ¬ (((applyAll [] [sampleCandle 1000 5 true, sampleCandle 1000 5 true]).filter
        (fun r => r.open_time == 1000)).length = 1) := by
  decide

/-- C1 (amended): for every sequence of `apply` calls, the resulting Series
contains one entry per applied candle, in application order: the entries
bearing a given `open_time` are the pre-existing ones followed by the rows
of every applied candle with that key, so the last entry with a key is the
last-applied candle for it, but the entry count per distinct key equals the
number of applications, not one. -/
theorem c1_amended (df : List Row) (cs : List Candle) (t : Nat) :
    (applyAll df cs).filter (fun r => r.open_time == t)
      = df.filter (fun r => r.open_time == t)
        ++ ((cs.filter (fun c => c.open_time == t)).map candleToRow) := by
  rw [applyAll_eq_append, List.filter_append, List.filter_map]
  rfl

/-- C2, as stated, is false on the code: applying the same candle value
twice yields a longer Series than applying it once, because
`integrate_closed_candle` appends a fresh row on every call. -/
theorem c2_counterexample :
    applyAll [] [sampleCandle 1000 5 true, sampleCandle 1000 5 true]
      ≠ applyAll [] [sampleCandle 1000 5 true] := by
  decide

/-- C2 (amended): `apply` is not idempotent; applying the same candle value
twice yields the once-applied Series with one additional copy of that
candle's row appended at the end. -/
theorem c2_amended (df : List Row) (c : Candle) :
    integrate_closed_candle (integrate_closed_candle df c) c
      = integrate_closed_candle df c ++ [candleToRow c] :=
  integrate_eq_append (integrate_closed_candle df c) c

/-- C3, as stated, is false on the code: inserting keys 2000 then 1000
yields iteration order 2000, 1000, which is not strictly ascending — the
code appends in arrival order and never sorts. -/
theorem c3_counterexample :
    strictlyAscending
      (rowTimes (applyAll [] [sampleCandle 2000 1 true, sampleCandle 1000 1 true]))
      = false := by
  decide

/-- C3 (amended): Series iteration order is exactly insertion order — the
key sequence after applying `cs` to `df` is `df`'s keys followed by the
applied candles' keys in application order — so iteration is strictly
ascending only when that insertion sequence itself is strictly ascending,
not regardless of insertion order. -/
theorem c3_amended (df : List Row) (cs : List Candle) :
    rowTimes (applyAll df cs) = rowTimes df ++ cs.map (fun c => c.open_time) ∧
    strictlyAscending (rowTimes (applyAll df cs))
      = strictlyAscending (rowTimes df ++ cs.map (fun c => c.open_time)) := by
  have h : rowTimes (applyAll df cs)
      = rowTimes df ++ cs.map (fun c => c.open_time) := by
    rw [applyAll_eq_append, rowTimes_append, rowTimes_map_candleToRow]
  exact ⟨h, by rw [h]⟩

/-- C4, as stated, is false on the code: in Scenario C the post-disconnect
updates (the superseding 2000 and the new 3000) never reach the Series,
because `run_continuous_stream` catches the stream error, saves, and
returns — there is no reconnect loop — so the final key sequence is
1000, 2000 and not 1000, 2000, 3000. -/
theorem c4_counterexample :
    rowTimes ((run_stream (initStreamer [] 5 0) scenarioC_events).combined_df)
      ≠ [1000, 2000, 3000] := by
  decide

/-- C4 (amended): on `ConnectionLost` the orchestrator does not reconnect:
it saves the current data and terminates, so the run over any event
sequence equals the run over the portion before the first connection loss,
and every later update is lost. -/
theorem c4_amended (s : StreamerState) (pre post : List FeedEvent)
    (h : ∀ e ∈ pre, e ≠ FeedEvent.connectionLost) :
    run_stream s (pre ++ FeedEvent.connectionLost :: post) = run_stream s pre := by
  induction pre generalizing s with
  | nil => rfl
  | cons e pre ih =>
    cases e with
    | update c now =>
      show run_stream (handle_live_candle s c now) (pre ++ _)
          = run_stream (handle_live_candle s c now) pre
      exact ih _ (fun e he => h e (List.mem_cons_of_mem _ he))
    | connectionLost => exact absurd rfl (h _ (List.mem_cons_self _ _))

/-- Witness for the amended C4 at a concrete run: one pre-disconnect update
at key 1000, one lost post-disconnect update at key 3000. -/
theorem c4_amended_witness :
    run_stream (initStreamer [] 5 0)
      ([FeedEvent.update (sampleCandle 1000 10 true) 0]
        ++ FeedEvent.connectionLost :: [FeedEvent.update (sampleCandle 3000 30 true) 0])
      = run_stream (initStreamer [] 5 0) [FeedEvent.update (sampleCandle 1000 10 true) 0] :=
  c4_amended (initStreamer [] 5 0) [FeedEvent.update (sampleCandle 1000 10 true) 0]
    [FeedEvent.update (sampleCandle 3000 30 true) 0] (by decide)

/-- C5: the code contradicts its own comments ("Get yesterday's last few
candles for context").  With an archive holding a January file and a June
file (the period immediately preceding today), the trailing context is
taken from the chronologically earliest file — the ten last rows of the
January file, here the candle at `open_time` 100 — while the candle at 5000
from the immediately preceding period never appears: `get_polars_df`
with `nfiles = 1` reads the first file of the ascending-sorted listing. -/
theorem c5_code_eval :
    get_complete_today_data twoDayToday (get_polars_df twoDayFetch twoDayKeys (some 1))
        = [addDatetimes (sampleRawKline 100 1), addDatetimes (sampleRawKline 10000 3)] ∧
    (rowTimes (get_complete_today_data twoDayToday
        (get_polars_df twoDayFetch twoDayKeys (some 1)))).contains 5000 = false := by
  constructor
  · decide
  · decide

/-- C6: a malformed inbound message is logged and skipped without tearing
down the connection — processing a stream with one malformed message, at
any position, yields exactly the state produced by the remaining messages
of the same connection, for every callback and start state: all subsequent
messages are still received and handled. -/
theorem c6_malformed_skipped {σ : Type} (callback : σ → Candle → Nat → σ)
    (init : σ) (pre post : List (RawMsg × Nat)) (t : Nat) :
    stream_live_data callback init (pre ++ (RawMsg.malformed, t) :: post)
      = stream_live_data callback init (pre ++ post) := by
  induction pre generalizing init with
  | nil => rfl
  | cons m pre ih =>
    simp only [List.cons_append, stream_live_data, List.foldl_cons] at ih ⊢
    exact ih _

/-- C7: an empty backfill response yields an empty sequence rather than a
failure, and a raised trailing-context fetch is caught, degrading to the
same-day-only data. -/
theorem c7_graceful_degradation :
    get_historical_today_data [] = ([] : List Row) ∧
    ∀ today : List Row, get_complete_today_data today (Except.error ()) = today :=
  ⟨rfl, fun _ => rfl⟩

/-- C8, as stated, is false on the code: persistence is only evaluated when
a live update arrives, not on a wall-clock timer.  With the default
5-minute period, checks at seconds 200, 400 and 1000 produce only two
saves although more than three full periods elapse — a persistence tick
does not occur once each period. -/
theorem c8_counterexample :
    ¬ (1000 / (5 * 60) ≤ (run_checks (initStreamer [] 5 0) [200, 400, 1000]).saves.length) := by
  decide

/-- C8 (amended): saves are evaluated only at update-arrival checks; a save
fires exactly when at least the configured period has elapsed since the
previous save, so along any monotone sequence of check instants every pair
of consecutive persisted snapshots is at least the configured period of
wall-clock time apart — but no tick is guaranteed inside a period that
contains no incoming update. -/
theorem c8_amended (seed : List Row) (interval t₀ : Nat) (times : List Nat)
    (hmono : List.Chain' (fun a b => a ≤ b) (t₀ :: times)) :
    List.Chain' (fun a b => a + interval * 60 ≤ b)
      ((run_checks (initStreamer seed interval t₀) times).saves) :=
  run_checks_saves_spaced times (initStreamer seed interval t₀) hmono
    (by simp [initStreamer]) (by simp [initStreamer])

/-- Witness for the amended C8: with the default 5-minute period and checks
at seconds 100, 400 and 800, the two saves (at 400 and 800) are at least
300 seconds apart. -/
theorem c8_amended_witness :
    List.Chain' (fun a b => a + 5 * 60 ≤ b)
      ((run_checks (initStreamer [] 5 0) [100, 400, 800]).saves) :=
  c8_amended [] 5 0 [100, 400, 800] (by simp)

/-- C9: an update whose `is_closed` flag is false leaves the consolidated
main dataset unchanged and is only appended to the separate live-candles
buffer (only closed updates are ever integrated into `combined_df`). -/
theorem c9_forming_candle_frame (s : StreamerState) (c : Candle) (now : Nat)
    (h : c.is_closed = false) :
    (handle_live_candle s c now).combined_df = s.combined_df ∧
    (handle_live_candle s c now).live_candles = s.live_candles ++ [c] := by
  unfold handle_live_candle auto_save_check
  simp only [h, Bool.false_eq_true, if_false]
  split <;> simp

/-- Witness for C9 at a concrete forming update. -/
theorem c9_forming_candle_frame_witness :
    (handle_live_candle (initStreamer [] 5 0) (sampleCandle 1000 7 false) 0).combined_df
        = (initStreamer [] 5 0).combined_df ∧
    (handle_live_candle (initStreamer [] 5 0) (sampleCandle 1000 7 false) 0).live_candles
        = (initStreamer [] 5 0).live_candles ++ [sampleCandle 1000 7 false] :=
  c9_forming_candle_frame (initStreamer [] 5 0) (sampleCandle 1000 7 false) 0 rfl

/-- C10: whenever the sorted archive listing is non-empty, `get_polars_df`
downloads the first file of the lexicographically sorted listing (the
chronologically earliest) for every `nfiles`, and its rows open the result;
with `nfiles` 0 or 1 the result is exactly that first file's rows. -/
theorem c10_first_file_always_included (fetch : String → List RawKline)
    (keys : List String) (nfiles : Option Nat) (f₀ : String) (rest : List String)
    (h : get_file_list_from_s3_bucket keys = f₀ :: rest) :
    (∃ t, get_polars_df fetch keys nfiles
        = Except.ok ((fetch f₀).map addDatetimes ++ t)) ∧
    get_polars_df fetch keys (some 0) = Except.ok ((fetch f₀).map addDatetimes) ∧
    get_polars_df fetch keys (some 1) = Except.ok ((fetch f₀).map addDatetimes) ∧
    List.Sorted (fun a b => strLe a b = true) (get_file_list_from_s3_bucket keys) := by
  refine ⟨?_, ?_, ?_, ?_⟩
  · simp only [get_polars_df, h]
    obtain ⟨t, ht⟩ := foldl_append_extends fetch
      (((match nfiles with
         | none => f₀ :: rest
         | some n => (f₀ :: rest).take n)).drop 1) (fetch f₀)
    exact ⟨t.map addDatetimes, by rw [ht]; simp⟩
  · simp [get_polars_df, h]
  · simp [get_polars_df, h]
  · rw [h]
    rw [show f₀ :: rest = get_file_list_from_s3_bucket keys from h.symm]
    exact List.sorted_insertionSort _ _

/-- Witness for C10 on the concrete `c10Keys` archive, whose sorted listing
starts with "a.zip". -/
theorem c10_witness :
    (∃ t, get_polars_df c10Fetch c10Keys none
        = Except.ok ((c10Fetch "a.zip").map addDatetimes ++ t)) ∧
    get_polars_df c10Fetch c10Keys (some 0)
        = Except.ok ((c10Fetch "a.zip").map addDatetimes) ∧
    get_polars_df c10Fetch c10Keys (some 1)
        = Except.ok ((c10Fetch "a.zip").map addDatetimes) ∧
    List.Sorted (fun a b => strLe a b = true) (get_file_list_from_s3_bucket c10Keys) :=
  c10_first_file_always_included c10Fetch c10Keys none "a.zip" ["b.zip"] (by decide)

end Cryptalyze
